import Mathlib

/-!
Verification of the volatility-carry strategy
(`src/strategies/volatility_carry.py`, class `VolatilityCarryStrategy`).

The Python source is shallowly embedded over exact rational arithmetic (`ℚ`):

* External collaborator calls (price-history update, `get_status`,
  `calculate_realized_volatility`, `calculate_volatility_regime`,
  `calculate_volatility_breakout`, `should_trade`) are modelled as inputs of
  type `Except Unit α`: `.error ()` is a raised exception at that call site,
  `.ok v` is a normal return of `v`.
* Python dict lookups with defaults (`d.get(k, default)`) are modelled with
  `Option` fields and `Option.getD`.
* `base.calculate_atr_simple`, an external collaborator, is kept abstract as
  a function parameter `atrSimple : List ℚ → ℚ`.
* The f-string `reason` text is modelled as a structured `Reason` value that
  records the branch taken and the numeric slope (string formatting of the
  number is abstracted away).
* The mutable instance fields set in `__init__` (`vol_term_structure`,
  `carry_history`, `last_carry_signal`, `carry_threshold_breached`) form an
  explicit state record `CarryState`; `generate_signal` is embedded as a
  state-passing function returning the produced signal and the new state.
-/

namespace ViperV1

/-- Branch marker and numeric slope recorded in the f-string `reason` field of
a produced `Signal` (`"Vol carry: Strong contango (slope=...)"` or
`"Vol carry: Strong backwardation (slope=...)"`). -/
inductive Reason where
  | contango (slope : ℚ)
  | backwardation (slope : ℚ)
deriving DecidableEq, Repr

/-- The `Signal` record constructed in `_analyze_term_structure`.
`action` uses the source encoding 0 = HOLD, 1 = BUY, 2 = SELL. -/
structure Signal where
  action : Nat
  confidence : ℚ
  entry_price : ℚ
  stop_price : ℚ
  target_price : ℚ
  reason : Reason
deriving DecidableEq, Repr

/-- Strategy-level configuration options read by the class
(`self.config.contango_threshold` etc.). -/
structure CarryConfig where
  contango_threshold : ℚ
  backwardation_threshold : ℚ
  target_atr_multiplier : ℚ
  min_carry_confidence : ℚ
deriving Repr

/-- System-wide risk-management options read by the class
(`self.system_config.risk_management.*`). -/
structure RiskConfig where
  stop_loss_atr_multiplier : ℚ
  min_confidence : ℚ
deriving Repr

/-- The fields of `MarketData` the class reads: `current_price` and the
15-minute price series `price_15m`. -/
structure MarketData where
  current_price : ℚ
  price_15m : List ℚ
deriving Repr

/-- One timeframe entry of `price_history_manager.get_status()`: the outer
`Option` is presence of the timeframe key, the inner `Option` is presence of
the `data_points` key (both default via `dict.get`). -/
structure HistStatus where
  tf5m : Option (Option Nat)
  tf15m : Option (Option Nat)
  tf1h : Option (Option Nat)
deriving Repr

/-- `status.get(timeframe, \x7b\x7d).get('data_points', 0)`. -/
def HistStatus.pointsOf (e : Option (Option Nat)) : Nat :=
  (e.getD none).getD 0

/-- `_has_sufficient_data`, with the loop over
`required_data = \x7b'5m': 100, '15m': 100, '1h': 100\x7d` unrolled in the
source's dict order. -/
def hasSufficientData (s : HistStatus) : Bool :=
  if HistStatus.pointsOf s.tf5m < 100 then false
  else if HistStatus.pointsOf s.tf15m < 100 then false
  else if HistStatus.pointsOf s.tf1h < 100 then false
  else true

/-- Return value of `calculate_realized_volatility(timeframe, (20, 60))`:
`falsy` is a Python-falsy result (`None` or an empty dict, failing the
`if realized_vols:` test); `dict t` is a truthy dict whose `'20_period'`
key holds `t` (absent when `t = none`, read via `.get('20_period', 0.0)`). -/
inductive RVResult where
  | falsy
  | dict (twenty_period : Option ℚ)
deriving DecidableEq, Repr

/-- Python truthiness of the realized-volatility result. -/
def RVResult.truthy : RVResult → Bool
  | .falsy => false
  | .dict _ => true

/-- `realized_vols.get('20_period', 0.0)` (0 on the falsy case, which the
source never reads). -/
def RVResult.twenty : RVResult → ℚ
  | .falsy => 0
  | .dict t => t.getD 0

/-- `short_medium_slope = (medium_vol - short_vol) / short_vol if short_vol > 0 else 0`. -/
def short_medium_slope (short_vol medium_vol : ℚ) : ℚ :=
  if 0 < short_vol then (medium_vol - short_vol) / short_vol else 0

/-- `medium_long_slope = (long_vol - medium_vol) / medium_vol if medium_vol > 0 else 0`. -/
def medium_long_slope (medium_vol long_vol : ℚ) : ℚ :=
  if 0 < medium_vol then (long_vol - medium_vol) / medium_vol else 0

/-- `overall_slope = (long_vol - short_vol) / short_vol if short_vol > 0 else 0`. -/
def overall_slope (short_vol long_vol : ℚ) : ℚ :=
  if 0 < short_vol then (long_vol - short_vol) / short_vol else 0

/-- Python slice `l[-20:]` specialised to `n = 20`: the last `n` elements. -/
def lastN (n : Nat) (l : List ℚ) : List ℚ :=
  l.drop (l.length - n)

/-- The ATR proxy computed in both directional branches:
`calculate_atr_simple(market_data.price_15m[-20:]) if len(market_data.price_15m) >= 20
else current_price * 0.01`. -/
def atrProxy (atrSimple : List ℚ → ℚ) (md : MarketData) : ℚ :=
  if 20 ≤ md.price_15m.length then atrSimple (lastN 20 md.price_15m)
  else md.current_price * 0.01

/-- Body of `_analyze_term_structure` after the three
`calculate_realized_volatility` calls returned normally with results
`r5, r15, r1h`: the `len(vol_structure) < 3` guard, slope computation and
the contango / backwardation case analysis building the `Signal`. -/
def analyzeCore (cfg : CarryConfig) (rm : RiskConfig) (atrSimple : List ℚ → ℚ)
    (r5 r15 r1h : RVResult) (md : MarketData) : Option Signal :=
  if r5.truthy && r15.truthy && r1h.truthy then
    let short_vol := r5.twenty
    let long_vol := r1h.twenty
    let slope := overall_slope short_vol long_vol
    let current_price := md.current_price
    if cfg.contango_threshold < slope then
      let signal_strength := min (slope / cfg.contango_threshold) 2
      let confidence := min (0.5 + signal_strength * 0.2) 0.9
      let atr := atrProxy atrSimple md
      some { action := 2
             confidence := confidence
             entry_price := current_price
             stop_price := current_price + atr * rm.stop_loss_atr_multiplier
             target_price := current_price - atr * cfg.target_atr_multiplier
             reason := .contango slope }
    else if slope < -cfg.backwardation_threshold then
      let signal_strength := min (|slope| / cfg.backwardation_threshold) 2
      let confidence := min (0.5 + signal_strength * 0.2) 0.9
      let atr := atrProxy atrSimple md
      some { action := 1
             confidence := confidence
             entry_price := current_price
             stop_price := current_price - atr * rm.stop_loss_atr_multiplier
             target_price := current_price + atr * cfg.target_atr_multiplier
             reason := .backwardation slope }
    else none
  else none

/-- `_analyze_term_structure` including its `try/except` and the three
fallible `calculate_realized_volatility` calls (made in source order; an
exception at any of them is caught and turned into `None`). -/
def analyzeTermStructure (cfg : CarryConfig) (rm : RiskConfig)
    (atrSimple : List ℚ → ℚ) (rv5E rv15E rv1hE : Except Unit RVResult)
    (md : MarketData) : Option Signal :=
  match rv5E with
  | .error _ => none
  | .ok r5 =>
    match rv15E with
    | .error _ => none
    | .ok r15 =>
      match rv1hE with
      | .error _ => none
      | .ok r1h => analyzeCore cfg rm atrSimple r5 r15 r1h md

/-- Result of `calculate_volatility_breakout('15m')` when it returns a dict:
`dict.get('is_breakout', False)` and `dict.get('breakout_strength', 0)`
defaults are modelled by the `Option` fields. -/
structure BreakoutInfo where
  is_breakout : Option Bool
  breakout_strength : Option ℚ
deriving DecidableEq, Repr

/-- The nested breakout test of `_validate_carry_opportunity`:
`breakout_info and breakout_info.get('is_breakout', False)` and then
`breakout_info.get('breakout_strength', 0) > 2.5`. -/
def breakoutRejects (bi : Option BreakoutInfo) : Bool :=
  match bi with
  | none => false
  | some b => b.is_breakout.getD false && decide ((2.5 : ℚ) < b.breakout_strength.getD 0)

/-- The checks of `_validate_carry_opportunity` that come after the two
regime filters: breakout override, then the `min_carry_confidence` floor. -/
def postRegimeChecks (cfg : CarryConfig) (bi : Option BreakoutInfo)
    (sig : Signal) : Bool :=
  if breakoutRejects bi then false
  else if sig.confidence < cfg.min_carry_confidence then false
  else true

/-- `_validate_carry_opportunity`, with its `try/except Exception: return False`:
the regime is fetched first, then (only if the regime filters pass) the
breakout info; an exception at either fetch yields `false`. -/
def validateCarryOpportunity (cfg : CarryConfig) (regimeE : Except Unit String)
    (breakoutE : Except Unit (Option BreakoutInfo)) (sig : Signal) : Bool :=
  match regimeE with
  | .error _ => false
  | .ok vol_regime =>
    if vol_regime = "low" ∧ sig.action = 2 then false
    else if vol_regime = "high" ∧ sig.action = 1 then false
    else
      match breakoutE with
      | .error _ => false
      | .ok bi => postRegimeChecks cfg bi sig

/-- Results of the collaborator calls available to one `generate_signal`
evaluation, each possibly an exception. -/
structure Collab where
  updateE : Except Unit Unit
  statusE : Except Unit HistStatus
  rv5E : Except Unit RVResult
  rv15E : Except Unit RVResult
  rv1hE : Except Unit RVResult
  regimeE : Except Unit String
  breakoutE : Except Unit (Option BreakoutInfo)
  shouldTradeE : Except Unit Bool

/-- `generate_signal` parametrised over the term-structure analysis step,
so that the gating structure (exception handling, sufficiency gate,
validation, risk gate, confidence floor) is stated once. -/
def generateSignalWith (analyze : MarketData → Option Signal)
    (cfg : CarryConfig) (rm : RiskConfig) (c : Collab) (md : MarketData) :
    Option Signal :=
  match c.updateE with
  | .error _ => none
  | .ok _ =>
    match c.statusE with
    | .error _ => none
    | .ok status =>
      if !hasSufficientData status then none
      else
        match analyze md with
        | none => none
        | some primary_signal =>
          if !validateCarryOpportunity cfg c.regimeE c.breakoutE primary_signal
          then none
          else
            match c.shouldTradeE with
            | .error _ => none
            | .ok st =>
              if !st then none
              else if primary_signal.confidence < rm.min_confidence then none
              else some primary_signal

/-- `generate_signal` proper: the analysis step is `_analyze_term_structure`. -/
def generateSignal (cfg : CarryConfig) (rm : RiskConfig)
    (atrSimple : List ℚ → ℚ) (c : Collab) (md : MarketData) : Option Signal :=
  generateSignalWith
    (analyzeTermStructure cfg rm atrSimple c.rv5E c.rv15E c.rv1hE)
    cfg rm c md

/-- The mutable instance fields initialised in `__init__`:
`vol_term_structure = \x7b\x7d`, `carry_history = []`,
`last_carry_signal = None`, `carry_threshold_breached = False`. -/
structure CarryState where
  vol_term_structure : List (String × ℚ)
  carry_history : List ℚ
  last_carry_signal : Option Signal
  carry_threshold_breached : Bool
deriving DecidableEq, Repr

/-- The state as `__init__` leaves it. -/
def initState : CarryState :=
  { vol_term_structure := []
    carry_history := []
    last_carry_signal := none
    carry_threshold_breached := false }

/-- `generate_signal` as a state transformer on the instance fields: the
method body contains no assignment to any of the four fields, so the state
component is returned unchanged. -/
def generateSignalS (cfg : CarryConfig) (rm : RiskConfig)
    (atrSimple : List ℚ → ℚ) (c : Collab) (md : MarketData)
    (s : CarryState) : Option Signal × CarryState :=
  (generateSignal cfg rm atrSimple c md, s)

/-- Return value of `get_strategy_status`: the full dict on the normal path,
or the degraded `\x7b'name': ..., 'status': 'error'\x7d` dict when
`calculate_volatility_metrics` (or anything else in the `try`) raised. -/
inductive StatusReport (M : Type) where
  | ok (name : String) (last_signal : Option Signal)
      (term_structure : List (String × ℚ)) (carry_history_length : Nat)
      (volatility_metrics : M) (threshold_breached : Bool)
  | degraded (name : String)
deriving Repr

/-- `get_strategy_status`, with the external
`calculate_volatility_metrics(None)` call modelled as an `Except` input. -/
def getStrategyStatus {M : Type} (name : String) (metricsE : Except Unit M)
    (s : CarryState) : StatusReport M :=
  match metricsE with
  | .error _ => .degraded name
  | .ok m =>
      .ok name s.last_carry_signal s.vol_term_structure s.carry_history.length
        m s.carry_threshold_breached

/-- Driving a strategy instance through a sequence of `generate_signal`
evaluations, tracking only the instance state. -/
def runSteps (cfg : CarryConfig) (rm : RiskConfig) (atrSimple : List ℚ → ℚ)
    (steps : List (Collab × MarketData)) (s : CarryState) : CarryState :=
  steps.foldl (fun st step => (generateSignalS cfg rm atrSimple step.1 step.2 st).2) s

/-- Boolean flag: the collaborator call raised an exception. -/
def raised {α : Type} : Except Unit α → Bool
  | .error _ => true
  | .ok _ => false

/-- Some collaborator call of this evaluation raised an exception. -/
def anyRaised (c : Collab) : Bool :=
  raised c.updateE || raised c.statusE || raised c.rv5E || raised c.rv15E ||
    raised c.rv1hE || raised c.regimeE || raised c.breakoutE ||
    raised c.shouldTradeE

/-! ### Concrete sample inputs used in example parts and witnesses -/

/-- Sample strategy configuration (thresholds from the spec's examples). -/
def cfg0 : CarryConfig :=
  { contango_threshold := 0.5
    backwardation_threshold := 0.3
    target_atr_multiplier := 1
    min_carry_confidence := 0.5 }

/-- Sample risk-management configuration. -/
def rm0 : RiskConfig :=
  { stop_loss_atr_multiplier := 1, min_confidence := 0.5 }

/-- Sample market snapshot: price 100, fewer than 20 fifteen-minute points. -/
def md0 : MarketData := { current_price := 100, price_15m := [] }

/-- Sample 5m realized-volatility dict with `'20_period' = 0.01`. -/
def rv5s : RVResult := .dict (some 0.01)

/-- Sample 15m realized-volatility dict with `'20_period' = 0.015`. -/
def rv15s : RVResult := .dict (some 0.015)

/-- Sample 1h realized-volatility dict with `'20_period' = 0.02`. -/
def rv1hs : RVResult := .dict (some 0.02)

/-- Sample 5m reading for the backwardation example (`0.02`). -/
def rv5b : RVResult := .dict (some 0.02)

/-- Sample 1h reading for the backwardation example (`0.01`). -/
def rv1hb : RVResult := .dict (some 0.01)

/-- Sample sufficient history status: 120 points on each timeframe. -/
def statusOK : HistStatus :=
  { tf5m := some (some 120), tf15m := some (some 120), tf1h := some (some 120) }

/-- Sample insufficient history status: only 50 points on 5m. -/
def statusLow : HistStatus :=
  { tf5m := some (some 50), tf15m := some (some 120), tf1h := some (some 120) }

/-- Sample collaborator results in which every call returns normally and every
gate passes (contango inputs: slope `= 1 > 0.5`). -/
def collabOK : Collab :=
  { updateE := .ok ()
    statusE := .ok statusOK
    rv5E := .ok rv5s
    rv15E := .ok rv15s
    rv1hE := .ok rv1hs
    regimeE := .ok "medium"
    breakoutE := .ok none
    shouldTradeE := .ok true }

/-- The signal `collabOK`/`md0`/`cfg0`/`rm0` produce: SELL with confidence
`0.9`, ATR proxy `= 1` (1% of price 100), stop `101`, target `99`. -/
def sig0 : Signal :=
  { action := 2
    confidence := 0.9
    entry_price := 100
    stop_price := 101
    target_price := 99
    reason := .contango 1 }

/-! ### Claim theorems -/

/-- C4: the slope computations divide only when the denominator is strictly
positive; for `short_vol ≤ 0` the overall slope is 0, and the adjacent-pair
slopes are 0 when their respective denominators are not strictly positive. -/
theorem c4_slope_division_guards (short_vol medium_vol long_vol : ℚ) :
    (short_vol ≤ 0 → overall_slope short_vol long_vol = 0) ∧
    (short_vol ≤ 0 → short_medium_slope short_vol medium_vol = 0) ∧
    (medium_vol ≤ 0 → medium_long_slope medium_vol long_vol = 0) := by
  refine ⟨fun h => ?_, fun h => ?_, fun h => ?_⟩ <;>
    simp [overall_slope, short_medium_slope, medium_long_slope, not_lt.mpr h]

/-- Witness for C4 at `short_vol = 0`, `medium_vol = 0`, `long_vol = 1`. -/
theorem c4_slope_division_guards_witness :
    overall_slope 0 1 = 0 ∧ short_medium_slope 0 0 = 0 ∧
      medium_long_slope 0 1 = 0 :=
  ⟨(c4_slope_division_guards 0 0 1).1 le_rfl,
   (c4_slope_division_guards 0 0 1).2.1 le_rfl,
   (c4_slope_division_guards 0 0 1).2.2 le_rfl⟩

/-- C5: the data-sufficiency gate is a pure function that holds exactly when
all three required timeframes (5m, 15m, 1h) report at least 100 data points
(missing timeframe or missing `data_points` entry counts as 0), and whenever
it fails, `generate_signal` returns `none` for every possible analysis step
(so term-structure analysis is never consulted). -/
theorem c5_sufficiency_gate :
    (∀ s : HistStatus, hasSufficientData s = true ↔
        (100 ≤ HistStatus.pointsOf s.tf5m ∧ 100 ≤ HistStatus.pointsOf s.tf15m ∧
         100 ≤ HistStatus.pointsOf s.tf1h)) ∧
    (∀ (analyze : MarketData → Option Signal) (cfg : CarryConfig)
       (rm : RiskConfig) (c : Collab) (md : MarketData) (status : HistStatus),
        c.statusE = Except.ok status → hasSufficientData status = false →
        generateSignalWith analyze cfg rm c md = none) := by
  constructor
  · intro s
    unfold hasSufficientData
    split
    · simp; omega
    · split
      · simp; omega
      · split
        · simp; omega
        · simp; omega
  · intro analyze cfg rm c md status hst hins
    unfold generateSignalWith
    cases hu : c.updateE with
    | error e => rfl
    | ok u => rw [hst]; simp [hins]

/-- Witness for C5: `statusLow` (50 points on 5m) fails the gate, and
`generate_signal` with that status returns `none` even when the analysis step
would always produce `sig0`. -/
theorem c5_sufficiency_gate_witness :
    generateSignalWith (fun _ => some sig0) cfg0 rm0
      { collabOK with statusE := .ok statusLow } md0 = none :=
  c5_sufficiency_gate.2 (fun _ => some sig0) cfg0 rm0
    { collabOK with statusE := .ok statusLow } md0 statusLow rfl (by decide)

/-- C1: when all three timeframe readings are available, the analyzer's case
split on the overall slope is: above `contango_threshold` a SELL candidate
with strength `min(slope/contango_threshold, 2)` and confidence
`min(0.5 + 0.2*strength, 0.9)`; below `-backwardation_threshold` a BUY
candidate with the symmetric formulas on `|slope|`; otherwise no candidate.
The two conjuncts at the end are the spec's numeric examples
(`0.01/0.02`, threshold `0.5` gives SELL at confidence `0.9`;
`0.02/0.01`, threshold `0.3` gives BUY at confidence `5/6`). -/
theorem c1_term_structure_case_analysis :
    (∀ (cfg : CarryConfig) (rm : RiskConfig) (atrSimple : List ℚ → ℚ)
       (r5 r15 r1h : RVResult) (md : MarketData),
        r5.truthy = true → r15.truthy = true → r1h.truthy = true →
        (cfg.contango_threshold < overall_slope r5.twenty r1h.twenty →
          (analyzeCore cfg rm atrSimple r5 r15 r1h md).map Signal.action = some 2 ∧
          (analyzeCore cfg rm atrSimple r5 r15 r1h md).map Signal.confidence =
            some (min (0.5 + min (overall_slope r5.twenty r1h.twenty /
              cfg.contango_threshold) 2 * 0.2) 0.9)) ∧
        (¬ cfg.contango_threshold < overall_slope r5.twenty r1h.twenty →
          overall_slope r5.twenty r1h.twenty < -cfg.backwardation_threshold →
          (analyzeCore cfg rm atrSimple r5 r15 r1h md).map Signal.action = some 1 ∧
          (analyzeCore cfg rm atrSimple r5 r15 r1h md).map Signal.confidence =
            some (min (0.5 + min (|overall_slope r5.twenty r1h.twenty| /
              cfg.backwardation_threshold) 2 * 0.2) 0.9)) ∧
        (¬ cfg.contango_threshold < overall_slope r5.twenty r1h.twenty →
          ¬ overall_slope r5.twenty r1h.twenty < -cfg.backwardation_threshold →
          analyzeCore cfg rm atrSimple r5 r15 r1h md = none)) ∧
    ((analyzeCore cfg0 rm0 (fun _ => 0) rv5s rv15s rv1hs md0).map Signal.action =
        some 2 ∧
     (analyzeCore cfg0 rm0 (fun _ => 0) rv5s rv15s rv1hs md0).map Signal.confidence =
        some 0.9) ∧
    ((analyzeCore cfg0 rm0 (fun _ => 0) rv5b rv15s rv1hb md0).map Signal.action =
        some 1 ∧
     (analyzeCore cfg0 rm0 (fun _ => 0) rv5b rv15s rv1hb md0).map Signal.confidence =
        some (5 / 6)) := by
  refine ⟨?_, ?_, ?_⟩
  case refine_2 =>
    constructor <;>
      norm_num [analyzeCore, overall_slope, RVResult.twenty, RVResult.truthy,
        cfg0, rm0, md0, rv5s, rv15s, rv1hs, atrProxy, lastN]
  case refine_3 =>
    constructor <;>
      norm_num [analyzeCore, overall_slope, RVResult.twenty, RVResult.truthy,
        cfg0, rm0, md0, rv5b, rv15s, rv1hb, atrProxy, lastN, min_def,
        abs_of_pos]
  intro cfg rm atrSimple r5 r15 r1h md h5 h15 h1h
  refine ⟨fun hc => ?_, fun hnc hb => ?_, fun hnc hnb => ?_⟩
  · simp [analyzeCore, h5, h15, h1h, hc]
  · simp [analyzeCore, h5, h15, h1h, hnc, hb]
  · simp [analyzeCore, h5, h15, h1h, hnc, hnb]

/-- Witness for C1: the contango branch at the spec's first example input. -/
theorem c1_term_structure_case_analysis_witness :
    (analyzeCore cfg0 rm0 (fun _ => 0) rv5s rv15s rv1hs md0).map Signal.action =
        some 2 ∧
    (analyzeCore cfg0 rm0 (fun _ => 0) rv5s rv15s rv1hs md0).map Signal.confidence =
        some (min (0.5 + min (overall_slope (RVResult.twenty rv5s)
          (RVResult.twenty rv1hs) / cfg0.contango_threshold) 2 * 0.2) 0.9) :=
  (c1_term_structure_case_analysis.1 cfg0 rm0 (fun _ => 0) rv5s rv15s rv1hs md0
    rfl rfl rfl).1
    (by norm_num [overall_slope, RVResult.twenty, cfg0, rv5s, rv1hs])

/-- C2: with positive configured thresholds, every signal the analyzer
produces is directional (never HOLD), fires only when the overall slope's
magnitude exceeds the respective threshold (contango for SELL, backwardation
for BUY), and has confidence in `[0.5, 0.9]`; when neither threshold is
crossed no signal object is produced at all. -/
theorem c2_directional_signal_invariant
    (cfg : CarryConfig) (rm : RiskConfig) (atrSimple : List ℚ → ℚ)
    (r5 r15 r1h : RVResult) (md : MarketData)
    (hct : 0 < cfg.contango_threshold) (hbt : 0 < cfg.backwardation_threshold) :
    (∀ sig : Signal, analyzeCore cfg rm atrSimple r5 r15 r1h md = some sig →
      ((sig.action = 2 ∧
          cfg.contango_threshold < |overall_slope r5.twenty r1h.twenty|) ∨
       (sig.action = 1 ∧
          cfg.backwardation_threshold < |overall_slope r5.twenty r1h.twenty|)) ∧
      0.5 ≤ sig.confidence ∧ sig.confidence ≤ 0.9) ∧
    (overall_slope r5.twenty r1h.twenty ≤ cfg.contango_threshold →
      -cfg.backwardation_threshold ≤ overall_slope r5.twenty r1h.twenty →
      analyzeCore cfg rm atrSimple r5 r15 r1h md = none) := by
  constructor
  · intro sig hsig
    simp only [analyzeCore] at hsig
    split at hsig
    · split at hsig
      · rename_i hc
        injection hsig with h
        subst h
        have hs : (0:ℚ) < overall_slope r5.twenty r1h.twenty := lt_trans hct hc
        have h1 : (0:ℚ) ≤
            min (overall_slope r5.twenty r1h.twenty / cfg.contango_threshold) 2 :=
          le_min (div_nonneg hs.le hct.le) (by norm_num)
        refine ⟨Or.inl ⟨rfl, ?_⟩, ?_, ?_⟩
        · rwa [abs_of_pos hs]
        · exact le_min (by linarith) (by norm_num)
        · exact min_le_right _ _
      · split at hsig
        · rename_i hb
          injection hsig with h
          subst h
          have hs : overall_slope r5.twenty r1h.twenty < 0 := by linarith
          have h1 : (0:ℚ) ≤
              min (|overall_slope r5.twenty r1h.twenty| /
                cfg.backwardation_threshold) 2 :=
            le_min (div_nonneg (abs_nonneg _) hbt.le) (by norm_num)
          refine ⟨Or.inr ⟨rfl, ?_⟩, ?_, ?_⟩
          · rw [abs_of_neg hs]; linarith
          · exact le_min (by linarith) (by norm_num)
          · exact min_le_right _ _
        · cases hsig
    · cases hsig
  · intro hle hge
    simp only [analyzeCore]
    split
    · rw [if_neg (not_lt.mpr hle), if_neg (not_lt.mpr hge)]
    · rfl

/-- Witness for C2 at the concrete contango run: `sig0` is a SELL signal
whose slope magnitude beats the threshold and whose confidence is in range. -/
theorem c2_directional_signal_invariant_witness :
    ((sig0.action = 2 ∧ cfg0.contango_threshold <
        |overall_slope (RVResult.twenty rv5s) (RVResult.twenty rv1hs)|) ∨
     (sig0.action = 1 ∧ cfg0.backwardation_threshold <
        |overall_slope (RVResult.twenty rv5s) (RVResult.twenty rv1hs)|)) ∧
    0.5 ≤ sig0.confidence ∧ sig0.confidence ≤ 0.9 :=
  (c2_directional_signal_invariant cfg0 rm0 (fun _ => 0) rv5s rv15s rv1hs md0
      (by norm_num [cfg0]) (by norm_num [cfg0])).1 sig0
    (by norm_num [analyzeCore, overall_slope, RVResult.twenty, RVResult.truthy,
      cfg0, rm0, md0, rv5s, rv15s, rv1hs, atrProxy, lastN, sig0])

/-- C6: the validator rejects every SELL candidate in a `"low"` 15-minute
volatility regime and every BUY candidate in a `"high"` regime (whatever the
candidate's confidence or the breakout data), and on every other
regime/action combination it is exactly the remaining (breakout and
confidence) checks — the regime itself rejects nothing else. -/
theorem c6_regime_filter (cfg : CarryConfig) (regime : String)
    (bi : Option BreakoutInfo) (sig : Signal) :
    (regime = "low" → sig.action = 2 →
      validateCarryOpportunity cfg (.ok regime) (.ok bi) sig = false) ∧
    (regime = "high" → sig.action = 1 →
      validateCarryOpportunity cfg (.ok regime) (.ok bi) sig = false) ∧
    (¬ (regime = "low" ∧ sig.action = 2) →
      ¬ (regime = "high" ∧ sig.action = 1) →
      validateCarryOpportunity cfg (.ok regime) (.ok bi) sig =
        postRegimeChecks cfg bi sig) := by
  refine ⟨fun h1 h2 => ?_, fun h1 h2 => ?_, fun h1 h2 => ?_⟩ <;>
    simp [validateCarryOpportunity, h1, h2]

/-- Witness for C6: a SELL candidate in a `"low"` regime is rejected. -/
theorem c6_regime_filter_witness :
    validateCarryOpportunity cfg0 (.ok "low") (.ok none) sig0 = false :=
  (c6_regime_filter cfg0 "low" none sig0).1 rfl rfl

/-- C7: a flagged breakout (`is_breakout` true) with strength strictly above
`2.5` makes the validator reject any candidate; with strength at most `2.5`
the breakout information changes nothing — the validator behaves exactly as
if no breakout dict had been returned. -/
theorem c7_breakout_override (cfg : CarryConfig) (regimeE : Except Unit String)
    (b : BreakoutInfo) (sig : Signal) :
    (b.is_breakout.getD false = true → (2.5 : ℚ) < b.breakout_strength.getD 0 →
      validateCarryOpportunity cfg regimeE (.ok (some b)) sig = false) ∧
    (b.breakout_strength.getD 0 ≤ 2.5 →
      validateCarryOpportunity cfg regimeE (.ok (some b)) sig =
        validateCarryOpportunity cfg regimeE (.ok none) sig) := by
  constructor
  · intro hib hst
    cases regimeE with
    | error e => rfl
    | ok regime =>
      simp [validateCarryOpportunity, postRegimeChecks, breakoutRejects, hib,
        hst]
  · intro hle
    cases regimeE with
    | error e => rfl
    | ok regime =>
      simp [validateCarryOpportunity, postRegimeChecks, breakoutRejects,
        not_lt.mpr hle]

/-- Witness for C7: a flagged breakout of strength 3 rejects `sig0` even in a
`"medium"` regime. -/
theorem c7_breakout_override_witness :
    validateCarryOpportunity cfg0 (.ok "medium")
      (.ok (some { is_breakout := some true, breakout_strength := some 3 }))
      sig0 = false :=
  (c7_breakout_override cfg0 (.ok "medium")
      { is_breakout := some true, breakout_strength := some 3 } sig0).1 rfl
    (by norm_num)

/-- C8: whenever the analyzer chooses a directional bias, the ATR proxy is
`calculate_atr_simple` on the last 20 fifteen-minute prices when at least 20
are stored and `1%` of the current price otherwise; a SELL candidate's stop
is above entry by ATR times the stop-loss multiplier and its target below
entry by ATR times the target multiplier, and a BUY candidate mirrors both
offsets. -/
theorem c8_atr_stop_target (cfg : CarryConfig) (rm : RiskConfig)
    (atrSimple : List ℚ → ℚ) (r5 r15 r1h : RVResult) (md : MarketData)
    (sig : Signal)
    (hsig : analyzeCore cfg rm atrSimple r5 r15 r1h md = some sig) :
    (sig.action = 2 →
      sig.stop_price = md.current_price +
        atrProxy atrSimple md * rm.stop_loss_atr_multiplier ∧
      sig.target_price = md.current_price -
        atrProxy atrSimple md * cfg.target_atr_multiplier) ∧
    (sig.action = 1 →
      sig.stop_price = md.current_price -
        atrProxy atrSimple md * rm.stop_loss_atr_multiplier ∧
      sig.target_price = md.current_price +
        atrProxy atrSimple md * cfg.target_atr_multiplier) ∧
    sig.entry_price = md.current_price ∧
    (20 ≤ md.price_15m.length →
      atrProxy atrSimple md = atrSimple (lastN 20 md.price_15m)) ∧
    (md.price_15m.length < 20 →
      atrProxy atrSimple md = md.current_price * 0.01) := by
  have hatr1 : 20 ≤ md.price_15m.length →
      atrProxy atrSimple md = atrSimple (lastN 20 md.price_15m) := by
    intro h; simp [atrProxy, h]
  have hatr2 : md.price_15m.length < 20 →
      atrProxy atrSimple md = md.current_price * 0.01 := by
    intro h; simp [atrProxy, not_le.mpr h]
  simp only [analyzeCore] at hsig
  split at hsig
  · split at hsig
    · injection hsig with h
      subst h
      exact ⟨fun _ => ⟨rfl, rfl⟩, fun h => by simp at h, rfl, hatr1, hatr2⟩
    · split at hsig
      · injection hsig with h
        subst h
        exact ⟨fun h => by simp at h, fun _ => ⟨rfl, rfl⟩, rfl, hatr1, hatr2⟩
      · cases hsig
  · cases hsig

/-- Witness for C8 at the concrete contango run (`sig0`, fewer than 20
fifteen-minute prices, ATR proxy `= 1`). -/
theorem c8_atr_stop_target_witness :
    (sig0.action = 2 →
      sig0.stop_price = md0.current_price +
        atrProxy (fun _ => 0) md0 * rm0.stop_loss_atr_multiplier ∧
      sig0.target_price = md0.current_price -
        atrProxy (fun _ => 0) md0 * cfg0.target_atr_multiplier) ∧
    (sig0.action = 1 →
      sig0.stop_price = md0.current_price -
        atrProxy (fun _ => 0) md0 * rm0.stop_loss_atr_multiplier ∧
      sig0.target_price = md0.current_price +
        atrProxy (fun _ => 0) md0 * cfg0.target_atr_multiplier) ∧
    sig0.entry_price = md0.current_price ∧
    (20 ≤ md0.price_15m.length →
      atrProxy (fun _ => 0) md0 = (fun _ => (0:ℚ)) (lastN 20 md0.price_15m)) ∧
    (md0.price_15m.length < 20 →
      atrProxy (fun _ => 0) md0 = md0.current_price * 0.01) :=
  c8_atr_stop_target cfg0 rm0 (fun _ => 0) rv5s rv15s rv1hs md0 sig0
    (by norm_num [analyzeCore, overall_slope, RVResult.twenty, RVResult.truthy,
      cfg0, rm0, md0, rv5s, rv15s, rv1hs, atrProxy, lastN, sig0])

/-- A normal collaborator return is not a raised exception. -/
theorem raised_ok {α : Type} (a : α) : raised (Except.ok a : Except Unit α) = false :=
  rfl

/-- An exceptional collaborator return counts as raised. -/
theorem raised_error {α : Type} (e : Unit) :
    raised (Except.error e : Except Unit α) = true :=
  rfl

/-- C9: a raised exception in any collaborator call makes `generate_signal`
return `none` (the orchestrator never propagates), an exception while
fetching the regime or breakout data makes the validator return `false`
(fail-closed), and an exception in any realized-volatility fetch makes the
term-structure analysis produce no candidate. -/
theorem c9_exception_handling :
    (∀ (cfg : CarryConfig) (rm : RiskConfig) (atrSimple : List ℚ → ℚ)
       (c : Collab) (md : MarketData), anyRaised c = true →
        generateSignal cfg rm atrSimple c md = none) ∧
    (∀ (cfg : CarryConfig) (regimeE : Except Unit String)
       (breakoutE : Except Unit (Option BreakoutInfo)) (sig : Signal),
        (raised regimeE || raised breakoutE) = true →
        validateCarryOpportunity cfg regimeE breakoutE sig = false) ∧
    (∀ (cfg : CarryConfig) (rm : RiskConfig) (atrSimple : List ℚ → ℚ)
       (rv5E rv15E rv1hE : Except Unit RVResult) (md : MarketData),
        (raised rv5E || raised rv15E || raised rv1hE) = true →
        analyzeTermStructure cfg rm atrSimple rv5E rv15E rv1hE md = none) := by
  have hval : ∀ (cfg : CarryConfig) (regimeE : Except Unit String)
      (breakoutE : Except Unit (Option BreakoutInfo)) (sig : Signal),
      (raised regimeE || raised breakoutE) = true →
      validateCarryOpportunity cfg regimeE breakoutE sig = false := by
    intro cfg regimeE breakoutE sig h
    cases regimeE with
    | error e => rfl
    | ok regime =>
      cases breakoutE with
      | error e =>
        simp only [validateCarryOpportunity]
        split
        · rfl
        · split
          · rfl
          · rfl
      | ok bi => simp [raised] at h
  have hana : ∀ (cfg : CarryConfig) (rm : RiskConfig) (atrSimple : List ℚ → ℚ)
      (rv5E rv15E rv1hE : Except Unit RVResult) (md : MarketData),
      (raised rv5E || raised rv15E || raised rv1hE) = true →
      analyzeTermStructure cfg rm atrSimple rv5E rv15E rv1hE md = none := by
    intro cfg rm atrSimple rv5E rv15E rv1hE md h
    cases rv5E with
    | error e => rfl
    | ok r5 =>
      cases rv15E with
      | error e => rfl
      | ok r15 =>
        cases rv1hE with
        | error e => rfl
        | ok r1h => simp [raised] at h
  refine ⟨?_, hval, hana⟩
  intro cfg rm atrSimple c md h
  unfold generateSignal generateSignalWith
  cases hu : c.updateE with
  | error e => rfl
  | ok u =>
    cases hs : c.statusE with
    | error e => rfl
    | ok status =>
      by_cases hsf : hasSufficientData status = true
      case neg =>
        have hsf' : hasSufficientData status = false := by simpa using hsf
        simp [hsf']
      case pos =>
        simp only [hsf, Bool.not_true, Bool.false_eq_true, if_false]
        cases h5 : c.rv5E with
        | error e => simp [analyzeTermStructure]
        | ok r5 =>
          cases h15 : c.rv15E with
          | error e => simp [analyzeTermStructure]
          | ok r15 =>
            cases h1 : c.rv1hE with
            | error e => simp [analyzeTermStructure]
            | ok r1h =>
              cases hac : analyzeCore cfg rm atrSimple r5 r15 r1h md with
              | none => simp [analyzeTermStructure, hac]
              | some ps =>
                simp only [analyzeTermStructure, hac]
                simp only [anyRaised, hu, hs, h5, h15, h1, raised_ok,
                  Bool.false_or, Bool.or_eq_true] at h
                rcases h with (hr | hb) | hst
                · rw [hval cfg c.regimeE c.breakoutE ps (by simp [hr])]
                  rfl
                · rw [hval cfg c.regimeE c.breakoutE ps (by simp [hb])]
                  rfl
                · by_cases hv :
                      validateCarryOpportunity cfg c.regimeE c.breakoutE ps =
                        true
                  · simp only [hv, Bool.not_true]
                    cases hste : c.shouldTradeE with
                    | error e => simp
                    | ok st => rw [hste] at hst; simp [raised] at hst
                  · have hv' :
                        validateCarryOpportunity cfg c.regimeE c.breakoutE ps =
                          false := by simpa using hv
                    simp [hv']

/-- Witness for C9: an exception in the risk-management gate alone (all other
collaborators normal) still yields no signal. -/
theorem c9_exception_handling_witness :
    generateSignal cfg0 rm0 (fun _ => 0)
      { collabOK with shouldTradeE := .error () } md0 = none :=
  c9_exception_handling.1 cfg0 rm0 (fun _ => 0)
    { collabOK with shouldTradeE := .error () } md0 rfl

/-- Helper for C10: `generate_signal` evaluations leave the instance state
exactly as it was, for any sequence of evaluations. -/
theorem runSteps_preserves (cfg : CarryConfig) (rm : RiskConfig)
    (atrSimple : List ℚ → ℚ) (steps : List (Collab × MarketData)) :
    ∀ s : CarryState, runSteps cfg rm atrSimple steps s = s := by
  induction steps with
  | nil => intro s; rfl
  | cons a l ih =>
    intro s
    simp only [runSteps, List.foldl_cons, generateSignalS]
    exact ih s

/-- C10: the term-structure cache, carry-history log and breached-threshold
flag start empty/false, no `generate_signal` evaluation mutates the instance
state, and hence every status snapshot over the instance's lifetime reports
`last_signal = none`, an empty term structure, `carry_history_length = 0`
and `threshold_breached = false`. -/
theorem c10_bookkeeping_constant :
    (initState.vol_term_structure = [] ∧ initState.carry_history = [] ∧
      initState.carry_threshold_breached = false) ∧
    (∀ (cfg : CarryConfig) (rm : RiskConfig) (atrSimple : List ℚ → ℚ)
       (c : Collab) (md : MarketData) (s : CarryState),
        (generateSignalS cfg rm atrSimple c md s).2 = s) ∧
    (∀ (cfg : CarryConfig) (rm : RiskConfig) (atrSimple : List ℚ → ℚ)
       (steps : List (Collab × MarketData)) (M : Type) (m : M)
       (name : String),
        getStrategyStatus name (.ok m)
            (runSteps cfg rm atrSimple steps initState) =
          StatusReport.ok name none [] 0 m false) := by
  refine ⟨⟨rfl, rfl, rfl⟩, fun _ _ _ _ _ _ => rfl, ?_⟩
  intro cfg rm atrSimple steps M m name
  rw [runSteps_preserves]
  rfl

/-- C3 counterexample: the concrete evaluation through `collabOK` passes all
gates and returns `sig0`, yet the stored last-signal field still holds
`none` — not the returned signal, contradicting the claim that a successful
evaluation updates the last-signal bookkeeping. -/
theorem c3_counterexample_last_signal_stale :
    (generateSignalS cfg0 rm0 (fun _ => 0) collabOK md0 initState).1 =
      some sig0 ∧
    ¬ ((generateSignalS cfg0 rm0 (fun _ => 0) collabOK md0
          initState).2.last_carry_signal =
        (generateSignalS cfg0 rm0 (fun _ => 0) collabOK md0 initState).1) := by
  have h1 : (generateSignalS cfg0 rm0 (fun _ => 0) collabOK md0 initState).1 =
      some sig0 := by
    norm_num [generateSignalS, generateSignal, generateSignalWith,
      analyzeTermStructure, analyzeCore, overall_slope, RVResult.twenty,
      RVResult.truthy, hasSufficientData, HistStatus.pointsOf,
      validateCarryOpportunity, postRegimeChecks, breakoutRejects, cfg0, rm0,
      md0, rv5s, rv15s, rv1hs, statusOK, collabOK, atrProxy, lastN, sig0]
    exact fun hme => absurd hme (by simp)
  refine ⟨h1, ?_⟩
  rw [h1]
  simp [generateSignalS, initState]

/-- C3 (amended): `generate_signal` performs no last-signal bookkeeping at
all — the stored field is returned unchanged by every evaluation, so from
construction onward it stays `none` regardless of the signal returned. -/
theorem c3_amended_no_last_signal_update (cfg : CarryConfig) (rm : RiskConfig)
    (atrSimple : List ℚ → ℚ) (c : Collab) (md : MarketData) (s : CarryState) :
    (generateSignalS cfg rm atrSimple c md s).2.last_carry_signal =
      s.last_carry_signal ∧
    (generateSignalS cfg rm atrSimple c md initState).2.last_carry_signal =
      none :=
  ⟨rfl, rfl⟩

end ViperV1
